import Mathlib

/- Shallow embedding of the retirement planner's numeric projection engine:
   the deterministic phase calculators (src/calculator/phase_calculator.py)
   and the Monte Carlo simulators (src/calculator/monte_carlo.py).

   Monetary amounts and rates are exact rationals (modelling Python `Decimal`
   and float arithmetic exactly); ages are integers.  Python exceptions
   (KeyError on a missing dict key, ZeroDivisionError, numpy's raise on a
   percentile of an empty array) are modelled with `Except` / `Option`.
   The Monte Carlo simulators take the stream of random monthly returns
   (the values `np.random.normal` would produce) as an explicit argument,
   so each simulated trajectory is a deterministic function of its draws. -/

namespace RetirementPlanner

/-- Iterate an indexed step function: `iterSteps f n s` applies
`f 0`, `f 1`, …, `f (n-1)` in order, mirroring `for month in range(n)`. -/
def iterSteps {σ : Type} (step : ℕ → σ → σ) : ℕ → σ → σ
  | 0, s => s
  | n + 1, s => step n (iterSteps step n s)

/- ===== Phase 1: accumulation (calculate_accumulation_phase) ===== -/

/-- Input of `calculate_accumulation_phase`, with the optional fields
(`employer_match_rate`, `annual_salary_increase`) already defaulted to 0
as `data.get(key) or 0` does. -/
structure AccumulationInput where
  current_age : ℤ
  retirement_start_age : ℤ
  current_savings : ℚ
  monthly_contribution : ℚ
  employer_match_rate : ℚ
  expected_return : ℚ
  annual_salary_increase : ℚ

/-- Mirror of the `AccumulationResults` dataclass. -/
structure AccumulationResults where
  years_to_retirement : ℤ
  retirement_start_age : ℤ
  total_personal_contributions : ℚ
  total_employer_contributions : ℚ
  future_value : ℚ
  investment_gains : ℚ
  final_monthly_contribution : ℚ

/-- Loop state of the contribution loop in `calculate_accumulation_phase`. -/
structure AccumState where
  total_personal : ℚ
  total_employer : ℚ
  fv_contributions : ℚ
  cur_contribution : ℚ
  cur_match : ℚ

/-- Number of months simulated: `months = years_to_retirement * 12`
(an empty `range` when the duration is negative). -/
def accumMonths (d : AccumulationInput) : ℕ :=
  ((d.retirement_start_age - d.current_age) * 12).toNat

/-- State before the loop: zero totals, initial contribution and employer
match (`monthly_contribution * (employer_match_rate / 100)`). -/
def accumInit (d : AccumulationInput) : AccumState :=
  { total_personal := 0
    total_employer := 0
    fv_contributions := 0
    cur_contribution := d.monthly_contribution
    cur_match := d.monthly_contribution * (d.employer_match_rate / 100) }

/-- One iteration of the contribution loop: accumulate the month's personal
and employer contribution, add its future value compounded over the
remaining `months - month - 1` periods, and raise the contribution once per
12 months when the salary-increase rate is positive. -/
def accumStep (d : AccumulationInput) (m : ℕ) (s : AccumState) : AccumState :=
  let months := accumMonths d
  let monthly_rate := d.expected_return / 100 / 12
  let salary_increase_rate := d.annual_salary_increase / 100
  let tp := s.total_personal + s.cur_contribution
  let te := s.total_employer + s.cur_match
  let fv := s.fv_contributions +
    (s.cur_contribution + s.cur_match) * (1 + monthly_rate) ^ (months - m - 1)
  if (m + 1) % 12 = 0 ∧ 0 < salary_increase_rate then
    let c := s.cur_contribution * (1 + salary_increase_rate)
    { total_personal := tp, total_employer := te, fv_contributions := fv,
      cur_contribution := c, cur_match := c * (d.employer_match_rate / 100) }
  else
    { total_personal := tp, total_employer := te, fv_contributions := fv,
      cur_contribution := s.cur_contribution, cur_match := s.cur_match }

/-- Loop state after `n` months of the accumulation loop. -/
def accumStateAfter (d : AccumulationInput) (n : ℕ) : AccumState :=
  iterSteps (accumStep d) n (accumInit d)

/-- Embedding of `calculate_accumulation_phase` (phase_calculator.py,
lines 169-220), with the input's fields already extracted. -/
def calculate_accumulation_phase (d : AccumulationInput) : AccumulationResults :=
  let years := d.retirement_start_age - d.current_age
  let monthly_rate := d.expected_return / 100 / 12
  let fv_current_savings := d.current_savings * (1 + monthly_rate) ^ (years * 12)
  let s := accumStateAfter d (accumMonths d)
  let future_value := fv_current_savings + s.fv_contributions
  { years_to_retirement := years
    retirement_start_age := d.retirement_start_age
    total_personal_contributions := s.total_personal
    total_employer_contributions := s.total_employer
    future_value := future_value
    investment_gains :=
      future_value - (d.current_savings + s.total_personal + s.total_employer)
    final_monthly_contribution := s.cur_contribution }

/- ===== Phase 2: phased retirement (calculate_phased_retirement_phase) ===== -/

/-- Input of `calculate_phased_retirement_phase`, optional fields
(`monthly_contribution`, `annual_withdrawal`, `part_time_income`)
already defaulted to 0. -/
structure PhasedInput where
  starting_portfolio : ℚ
  phase_start_age : ℤ
  full_retirement_age : ℤ
  monthly_contribution : ℚ
  annual_withdrawal : ℚ
  part_time_income : ℚ
  expected_return : ℚ

/-- Mirror of the `PhasedRetirementResults` dataclass. -/
structure PhasedRetirementResults where
  phase_duration_years : ℤ
  full_retirement_age : ℤ
  starting_portfolio : ℚ
  ending_portfolio : ℚ
  total_contributions : ℚ
  total_withdrawals : ℚ
  total_part_time_income : ℚ
  investment_gains : ℚ
  net_change : ℚ

/-- Loop state of the month loop in `calculate_phased_retirement_phase`. -/
structure PhasedState where
  portfolio : ℚ
  total_contributions : ℚ
  total_withdrawals : ℚ
  total_investment_gains : ℚ

/-- One month of phased retirement: growth, then contribution, then
withdrawal — with no clamp of the portfolio at zero. -/
def phasedStep (d : PhasedInput) (_m : ℕ) (s : PhasedState) : PhasedState :=
  let monthly_rate := d.expected_return / 100 / 12
  let monthly_withdrawal := d.annual_withdrawal / 12
  let gain := s.portfolio * monthly_rate
  { portfolio := s.portfolio + gain + d.monthly_contribution - monthly_withdrawal
    total_contributions := s.total_contributions + d.monthly_contribution
    total_withdrawals := s.total_withdrawals + monthly_withdrawal
    total_investment_gains := s.total_investment_gains + gain }

/-- Months simulated by the phased-retirement loop. -/
def phasedMonths (d : PhasedInput) : ℕ :=
  ((d.full_retirement_age - d.phase_start_age) * 12).toNat

/-- Embedding of `calculate_phased_retirement_phase` (phase_calculator.py,
lines 236-282). -/
def calculate_phased_retirement_phase (d : PhasedInput) : PhasedRetirementResults :=
  let years := d.full_retirement_age - d.phase_start_age
  let s := iterSteps (phasedStep d) (phasedMonths d)
    { portfolio := d.starting_portfolio, total_contributions := 0,
      total_withdrawals := 0, total_investment_gains := 0 }
  { phase_duration_years := years
    full_retirement_age := d.full_retirement_age
    starting_portfolio := d.starting_portfolio
    ending_portfolio := s.portfolio
    total_contributions := s.total_contributions
    total_withdrawals := s.total_withdrawals
    total_part_time_income := d.part_time_income * (years : ℚ)
    investment_gains := s.total_investment_gains
    net_change := s.portfolio - d.starting_portfolio }

/- ===== Phase 3: active retirement (calculate_active_retirement_phase) ===== -/

/-- Input of `calculate_active_retirement_phase`, optional fields
(`social_security_annual`, `pension_annual`) already defaulted to 0. -/
structure ActiveInput where
  starting_portfolio : ℚ
  active_retirement_start_age : ℤ
  active_retirement_end_age : ℤ
  annual_expenses : ℚ
  annual_healthcare_costs : ℚ
  social_security_annual : ℚ
  pension_annual : ℚ
  expected_return : ℚ
  inflation_rate : ℚ

/-- Mirror of the `ActiveRetirementResults` dataclass. -/
structure ActiveRetirementResults where
  phase_duration_years : ℤ
  active_retirement_end_age : ℤ
  starting_portfolio : ℚ
  ending_portfolio : ℚ
  total_withdrawals : ℚ
  total_social_security : ℚ
  total_pension : ℚ
  total_investment_gains : ℚ
  average_annual_withdrawal : ℚ
  portfolio_depletion_age : Option ℤ

/-- Loop state of the month loop in `calculate_active_retirement_phase`.
`stopped` records that the `break` on `portfolio <= 0` has fired: once set,
later iterations leave the state untouched. -/
structure ActiveState where
  portfolio : ℚ
  total_withdrawals : ℚ
  total_social_security : ℚ
  total_pension : ℚ
  total_investment_gains : ℚ
  cur_expenses : ℚ
  cur_healthcare : ℚ
  depletion_age : Option ℤ
  stopped : Bool

/-- One month of active retirement: growth, record income, withdraw
`max 0 (costs - income)` clamped at the available balance (recording the
depletion age when the clamp fires), inflate costs monthly, and stop when
the balance is ≤ 0 at the end of the month. -/
def activeStep (d : ActiveInput) (m : ℕ) (s : ActiveState) : ActiveState :=
  if s.stopped then s else
  let monthly_return_rate := d.expected_return / 100 / 12
  let monthly_inflation_rate := d.inflation_rate / 100 / 12
  let monthly_social_security := d.social_security_annual / 12
  let monthly_pension := d.pension_annual / 12
  let current_age := d.active_retirement_start_age + (m / 12 : ℕ)
  let gain := s.portfolio * monthly_return_rate
  let p1 := s.portfolio + gain
  let total_monthly_costs := s.cur_expenses + s.cur_healthcare
  let monthly_income := monthly_social_security + monthly_pension
  let wn := max 0 (total_monthly_costs - monthly_income)
  let depleted := p1 < wn
  let wd := if depleted then p1 else wn
  let p2 := if depleted then 0 else p1 - wn
  { portfolio := p2
    total_withdrawals := s.total_withdrawals + wd
    total_social_security := s.total_social_security + monthly_social_security
    total_pension := s.total_pension + monthly_pension
    total_investment_gains := s.total_investment_gains + gain
    cur_expenses := s.cur_expenses * (1 + monthly_inflation_rate)
    cur_healthcare := s.cur_healthcare * (1 + monthly_inflation_rate)
    depletion_age := if depleted then some current_age else s.depletion_age
    stopped := decide (p2 ≤ 0) }

/-- Months simulated by the active-retirement loop. -/
def activeMonths (d : ActiveInput) : ℕ :=
  ((d.active_retirement_end_age - d.active_retirement_start_age) * 12).toNat

/-- State before the active-retirement loop. -/
def activeInit (d : ActiveInput) : ActiveState :=
  { portfolio := d.starting_portfolio
    total_withdrawals := 0
    total_social_security := 0
    total_pension := 0
    total_investment_gains := 0
    cur_expenses := d.annual_expenses / 12
    cur_healthcare := d.annual_healthcare_costs / 12
    depletion_age := none
    stopped := false }

/-- Loop state after `n` months of the active-retirement loop. -/
def activeStateAfter (d : ActiveInput) (n : ℕ) : ActiveState :=
  iterSteps (activeStep d) n (activeInit d)

/-- Embedding of `calculate_active_retirement_phase` (phase_calculator.py,
lines 288-382). -/
def calculate_active_retirement_phase (d : ActiveInput) : ActiveRetirementResults :=
  let years := d.active_retirement_end_age - d.active_retirement_start_age
  let s := activeStateAfter d (activeMonths d)
  { phase_duration_years := years
    active_retirement_end_age := d.active_retirement_end_age
    starting_portfolio := d.starting_portfolio
    ending_portfolio := s.portfolio
    total_withdrawals := s.total_withdrawals
    total_social_security := s.total_social_security
    total_pension := s.total_pension
    total_investment_gains := s.total_investment_gains
    average_annual_withdrawal :=
      if 0 < years then s.total_withdrawals / (years : ℚ) else 0
    portfolio_depletion_age := s.depletion_age }

/- ===== Phase 4: late retirement (calculate_late_retirement_phase) ===== -/

/-- Input of `calculate_late_retirement_phase`, optional fields
(`long_term_care_annual`, `ltc_insurance_coverage`, `social_security_annual`,
`desired_legacy`) already defaulted to 0. -/
structure LateInput where
  starting_portfolio : ℚ
  late_retirement_start_age : ℤ
  life_expectancy : ℤ
  annual_basic_expenses : ℚ
  annual_healthcare_costs : ℚ
  long_term_care_annual : ℚ
  ltc_insurance_coverage : ℚ
  social_security_annual : ℚ
  expected_return : ℚ
  inflation_rate : ℚ
  desired_legacy : ℚ

/-- Mirror of the `LateRetirementResults` dataclass. -/
structure LateRetirementResults where
  phase_duration_years : ℤ
  starting_portfolio : ℚ
  ending_portfolio : ℚ
  total_withdrawals : ℚ
  total_ltc_costs : ℚ
  total_ltc_insurance_paid : ℚ
  total_social_security : ℚ
  total_investment_gains : ℚ
  net_ltc_out_of_pocket : ℚ
  legacy_amount : ℚ
  portfolio_sufficient : Bool

/-- Loop state of the month loop in `calculate_late_retirement_phase`.
`depleted` is the `portfolio_depleted_early` flag; because the code breaks
as soon as it is set, later iterations leave the state untouched. -/
structure LateState where
  portfolio : ℚ
  total_withdrawals : ℚ
  total_ltc_costs : ℚ
  total_ltc_insurance_paid : ℚ
  total_social_security : ℚ
  total_investment_gains : ℚ
  cur_basic : ℚ
  cur_healthcare : ℚ
  cur_ltc : ℚ
  depleted : Bool

/-- One month of late retirement: growth, record social security, tally LTC
cost, offset it by insurance (capped at the month's LTC cost), withdraw
`max 0 (net costs - social security)` clamped at the balance, inflate all
three cost streams monthly, and mark depletion when the balance is ≤ 0 at
the end of the month's processing. -/
def lateStep (d : LateInput) (_m : ℕ) (s : LateState) : LateState :=
  if s.depleted then s else
  let monthly_return_rate := d.expected_return / 100 / 12
  let monthly_inflation_rate := d.inflation_rate / 100 / 12
  let monthly_ltc_insurance := d.ltc_insurance_coverage / 12
  let monthly_social_security := d.social_security_annual / 12
  let gain := s.portfolio * monthly_return_rate
  let p1 := s.portfolio + gain
  let total_monthly_costs := s.cur_basic + s.cur_healthcare + s.cur_ltc
  let cov := min monthly_ltc_insurance s.cur_ltc
  let net_costs := total_monthly_costs - cov
  let wn := max 0 (net_costs - monthly_social_security)
  let wd := min wn p1
  let p2 := p1 - wd
  { portfolio := p2
    total_withdrawals := s.total_withdrawals + wd
    total_ltc_costs := s.total_ltc_costs + s.cur_ltc
    total_ltc_insurance_paid := s.total_ltc_insurance_paid + cov
    total_social_security := s.total_social_security + monthly_social_security
    total_investment_gains := s.total_investment_gains + gain
    cur_basic := s.cur_basic * (1 + monthly_inflation_rate)
    cur_healthcare := s.cur_healthcare * (1 + monthly_inflation_rate)
    cur_ltc := s.cur_ltc * (1 + monthly_inflation_rate)
    depleted := decide (p2 ≤ 0) }

/-- Months simulated by the late-retirement loop. -/
def lateMonths (d : LateInput) : ℕ :=
  ((d.life_expectancy - d.late_retirement_start_age) * 12).toNat

/-- State before the late-retirement loop. -/
def lateInit (d : LateInput) : LateState :=
  { portfolio := d.starting_portfolio
    total_withdrawals := 0
    total_ltc_costs := 0
    total_ltc_insurance_paid := 0
    total_social_security := 0
    total_investment_gains := 0
    cur_basic := d.annual_basic_expenses / 12
    cur_healthcare := d.annual_healthcare_costs / 12
    cur_ltc := d.long_term_care_annual / 12
    depleted := false }

/-- Loop state after `n` months of the late-retirement loop. -/
def lateStateAfter (d : LateInput) (n : ℕ) : LateState :=
  iterSteps (lateStep d) n (lateInit d)

/-- Embedding of `calculate_late_retirement_phase` (phase_calculator.py,
lines 388-495). -/
def calculate_late_retirement_phase (d : LateInput) : LateRetirementResults :=
  let years := d.life_expectancy - d.late_retirement_start_age
  let s := lateStateAfter d (lateMonths d)
  let ending := max 0 s.portfolio
  { phase_duration_years := years
    starting_portfolio := d.starting_portfolio
    ending_portfolio := ending
    total_withdrawals := s.total_withdrawals
    total_ltc_costs := s.total_ltc_costs
    total_ltc_insurance_paid := s.total_ltc_insurance_paid
    total_social_security := s.total_social_security
    total_investment_gains := s.total_investment_gains
    net_ltc_out_of_pocket := s.total_ltc_costs - s.total_ltc_insurance_paid
    legacy_amount := ending
    portfolio_sufficient := !s.depleted && decide (d.desired_legacy ≤ ending) }

/- ===== Input mappings with missing/present fields =====

The deterministic phase functions receive a Python dict.  `data[key]` on a
missing key raises `KeyError(key)` before any computation; `data.get(key)
or 0` silently turns an absent or null optional field into 0.  The dict is
modelled as a structure of `Option` fields and the two access styles as
`reqField` (an `Except` naming the missing field) and `optField`. -/

/-- Result of `data[key]`: the value, or a `KeyError` naming the key. -/
def reqField {α : Type} (v : Option α) (key : String) : Except String α :=
  match v with
  | some x => .ok x
  | none => .error key

/-- Result of `data.get(key) or 0`: absent (or null) defaults to 0. -/
def optField (v : Option ℚ) : ℚ := v.getD 0

/-- The accumulation input dict, each field possibly absent. -/
structure AccumulationData where
  current_age : Option ℤ
  retirement_start_age : Option ℤ
  current_savings : Option ℚ
  monthly_contribution : Option ℚ
  employer_match_rate : Option ℚ
  expected_return : Option ℚ
  annual_salary_increase : Option ℚ

/-- Field extraction of `calculate_accumulation_phase`, in source order:
every field is read (and any `KeyError` raised) before any computation. -/
def calculate_accumulation_phase_checked (d : AccumulationData) :
    Except String AccumulationResults := do
  let ca ← reqField d.current_age "current_age"
  let ra ← reqField d.retirement_start_age "retirement_start_age"
  let cs ← reqField d.current_savings "current_savings"
  let mc ← reqField d.monthly_contribution "monthly_contribution"
  let em := optField d.employer_match_rate
  let er ← reqField d.expected_return "expected_return"
  let si := optField d.annual_salary_increase
  pure (calculate_accumulation_phase ⟨ca, ra, cs, mc, em, er, si⟩)

/-- The phased-retirement input dict, each field possibly absent. -/
structure PhasedData where
  starting_portfolio : Option ℚ
  phase_start_age : Option ℤ
  full_retirement_age : Option ℤ
  monthly_contribution : Option ℚ
  annual_withdrawal : Option ℚ
  part_time_income : Option ℚ
  expected_return : Option ℚ

/-- Field extraction of `calculate_phased_retirement_phase`, in source
order. -/
def calculate_phased_retirement_phase_checked (d : PhasedData) :
    Except String PhasedRetirementResults := do
  let sp ← reqField d.starting_portfolio "starting_portfolio"
  let sa ← reqField d.phase_start_age "phase_start_age"
  let fa ← reqField d.full_retirement_age "full_retirement_age"
  let mc := optField d.monthly_contribution
  let aw := optField d.annual_withdrawal
  let pt := optField d.part_time_income
  let er ← reqField d.expected_return "expected_return"
  pure (calculate_phased_retirement_phase ⟨sp, sa, fa, mc, aw, pt, er⟩)

/-- The active-retirement input dict, each field possibly absent. -/
structure ActiveData where
  starting_portfolio : Option ℚ
  active_retirement_start_age : Option ℤ
  active_retirement_end_age : Option ℤ
  annual_expenses : Option ℚ
  annual_healthcare_costs : Option ℚ
  social_security_annual : Option ℚ
  pension_annual : Option ℚ
  expected_return : Option ℚ
  inflation_rate : Option ℚ

/-- Field extraction of `calculate_active_retirement_phase`, in source
order. -/
def calculate_active_retirement_phase_checked (d : ActiveData) :
    Except String ActiveRetirementResults := do
  let sp ← reqField d.starting_portfolio "starting_portfolio"
  let sa ← reqField d.active_retirement_start_age "active_retirement_start_age"
  let ea ← reqField d.active_retirement_end_age "active_retirement_end_age"
  let ae ← reqField d.annual_expenses "annual_expenses"
  let hc ← reqField d.annual_healthcare_costs "annual_healthcare_costs"
  let ss := optField d.social_security_annual
  let pe := optField d.pension_annual
  let er ← reqField d.expected_return "expected_return"
  let ir ← reqField d.inflation_rate "inflation_rate"
  pure (calculate_active_retirement_phase ⟨sp, sa, ea, ae, hc, ss, pe, er, ir⟩)

/-- The late-retirement input dict, each field possibly absent. -/
structure LateData where
  starting_portfolio : Option ℚ
  late_retirement_start_age : Option ℤ
  life_expectancy : Option ℤ
  annual_basic_expenses : Option ℚ
  annual_healthcare_costs : Option ℚ
  long_term_care_annual : Option ℚ
  ltc_insurance_coverage : Option ℚ
  social_security_annual : Option ℚ
  expected_return : Option ℚ
  inflation_rate : Option ℚ
  desired_legacy : Option ℚ

/-- Field extraction of `calculate_late_retirement_phase`, in source
order. -/
def calculate_late_retirement_phase_checked (d : LateData) :
    Except String LateRetirementResults := do
  let sp ← reqField d.starting_portfolio "starting_portfolio"
  let sa ← reqField d.late_retirement_start_age "late_retirement_start_age"
  let le ← reqField d.life_expectancy "life_expectancy"
  let be ← reqField d.annual_basic_expenses "annual_basic_expenses"
  let hc ← reqField d.annual_healthcare_costs "annual_healthcare_costs"
  let ltc := optField d.long_term_care_annual
  let ins := optField d.ltc_insurance_coverage
  let ss := optField d.social_security_annual
  let er ← reqField d.expected_return "expected_return"
  let ir ← reqField d.inflation_rate "inflation_rate"
  let dl := optField d.desired_legacy
  pure (calculate_late_retirement_phase ⟨sp, sa, le, be, hc, ltc, ins, ss, er, ir, dl⟩)

/-- Whether an `Except` call succeeded (did not raise). -/
def isOkE {α : Type} : Except String α → Bool
  | .ok _ => true
  | .error _ => false

/-- The fields `calculate_accumulation_phase` reads with `data[key]`. -/
def AccumulationData.requiredKeys : List String :=
  ["current_age", "retirement_start_age", "current_savings",
   "monthly_contribution", "expected_return"]

/-- All required accumulation fields are present. -/
def AccumulationData.requiredPresent (d : AccumulationData) : Prop :=
  d.current_age.isSome = true ∧ d.retirement_start_age.isSome = true ∧
  d.current_savings.isSome = true ∧ d.monthly_contribution.isSome = true ∧
  d.expected_return.isSome = true

/-- Replace the optional accumulation fields by their explicit defaults
(absent ↦ present with value 0), leaving required fields untouched. -/
def AccumulationData.fillOptional (d : AccumulationData) : AccumulationData :=
  { d with employer_match_rate := some (optField d.employer_match_rate)
           annual_salary_increase := some (optField d.annual_salary_increase) }

/-- The fields `calculate_phased_retirement_phase` reads with `data[key]`. -/
def PhasedData.requiredKeys : List String :=
  ["starting_portfolio", "phase_start_age", "full_retirement_age",
   "expected_return"]

/-- All required phased-retirement fields are present. -/
def PhasedData.requiredPresent (d : PhasedData) : Prop :=
  d.starting_portfolio.isSome = true ∧ d.phase_start_age.isSome = true ∧
  d.full_retirement_age.isSome = true ∧ d.expected_return.isSome = true

/-- Replace the optional phased-retirement fields by their explicit
defaults. -/
def PhasedData.fillOptional (d : PhasedData) : PhasedData :=
  { d with monthly_contribution := some (optField d.monthly_contribution)
           annual_withdrawal := some (optField d.annual_withdrawal)
           part_time_income := some (optField d.part_time_income) }

/-- The fields `calculate_active_retirement_phase` reads with
`data[key]`. -/
def ActiveData.requiredKeys : List String :=
  ["starting_portfolio", "active_retirement_start_age",
   "active_retirement_end_age", "annual_expenses",
   "annual_healthcare_costs", "expected_return", "inflation_rate"]

/-- All required active-retirement fields are present. -/
def ActiveData.requiredPresent (d : ActiveData) : Prop :=
  d.starting_portfolio.isSome = true ∧
  d.active_retirement_start_age.isSome = true ∧
  d.active_retirement_end_age.isSome = true ∧
  d.annual_expenses.isSome = true ∧
  d.annual_healthcare_costs.isSome = true ∧
  d.expected_return.isSome = true ∧ d.inflation_rate.isSome = true

/-- Replace the optional active-retirement fields by their explicit
defaults. -/
def ActiveData.fillOptional (d : ActiveData) : ActiveData :=
  { d with social_security_annual := some (optField d.social_security_annual)
           pension_annual := some (optField d.pension_annual) }

/-- The fields `calculate_late_retirement_phase` reads with `data[key]`. -/
def LateData.requiredKeys : List String :=
  ["starting_portfolio", "late_retirement_start_age", "life_expectancy",
   "annual_basic_expenses", "annual_healthcare_costs", "expected_return",
   "inflation_rate"]

/-- All required late-retirement fields are present. -/
def LateData.requiredPresent (d : LateData) : Prop :=
  d.starting_portfolio.isSome = true ∧
  d.late_retirement_start_age.isSome = true ∧
  d.life_expectancy.isSome = true ∧ d.annual_basic_expenses.isSome = true ∧
  d.annual_healthcare_costs.isSome = true ∧ d.expected_return.isSome = true ∧
  d.inflation_rate.isSome = true

/-- Replace the optional late-retirement fields by their explicit
defaults. -/
def LateData.fillOptional (d : LateData) : LateData :=
  { d with long_term_care_annual := some (optField d.long_term_care_annual)
           ltc_insurance_coverage := some (optField d.ltc_insurance_coverage)
           social_security_annual := some (optField d.social_security_annual)
           desired_legacy := some (optField d.desired_legacy) }

/- ===== Monte Carlo simulators (monte_carlo.py) ===== -/

/-- Ascending sort, as `np.percentile` / `np.median` perform internally. -/
def sortQ (l : List ℚ) : List ℚ := l.insertionSort (· ≤ ·)

/-- Linear interpolation at virtual index `h` of a sorted list — the body of
numpy's default (linear) percentile method. -/
def interpAt (s : List ℚ) (h : ℚ) : ℚ :=
  let i := (Int.floor h).toNat
  let j := (Int.ceil h).toNat
  let a := s.getD i 0
  let b := s.getD j 0
  a + (h - Int.floor h) * (b - a)

/-- The virtual index used by `np.percentile(a, p)`:
`(length - 1) * p / 100`. -/
def pctlIndex (n : ℕ) (p : ℚ) : ℚ := p * ((n : ℚ) - 1) / 100

/-- The value of `np.percentile(a, p)` on a nonempty array. -/
def pctlVal (l : List ℚ) (p : ℚ) : ℚ := interpAt (sortQ l) (pctlIndex l.length p)

/-- The value of `np.median(a)` on a nonempty array: middle element of the
sorted array, or the average of the two middle elements for even length. -/
def medianVal (l : List ℚ) : ℚ :=
  let s := sortQ l
  let n := s.length
  if n % 2 = 1 then s.getD (n / 2) 0
  else (s.getD (n / 2 - 1) 0 + s.getD (n / 2) 0) / 2

/-- `np.percentile(a, p)` with linear interpolation; numpy raises on an
empty array, modelled as `none`. -/
def percentileQ (l : List ℚ) (p : ℚ) : Option ℚ :=
  match l with
  | [] => none
  | _ => some (pctlVal l p)

/-- `np.median(a)`; nan/raise behaviour on an empty array modelled as
`none`. -/
def medianQ (l : List ℚ) : Option ℚ :=
  match l with
  | [] => none
  | _ => some (medianVal l)

/-- Mirror of the `MonteCarloResults` dataclass for the fields the claims
concern.  `np.std` is an irrational square root in general; its square
(the population variance of the outcomes) is carried instead as `var_sq`,
which determines it.  The year-by-year percentile band lists, used only
for charting, are not carried. -/
structure MonteCarloResults where
  mean : ℚ
  median : ℚ
  percentile_10 : ℚ
  percentile_25 : ℚ
  percentile_50 : ℚ
  percentile_75 : ℚ
  percentile_90 : ℚ
  var_sq : ℚ
  success_rate : ℚ
  all_outcomes : List ℚ
  deriving DecidableEq

/-- The record both simulators build from a nonempty outcome array. -/
def mcStatsVal (o : List ℚ) (sr : ℚ) : MonteCarloResults :=
  let μ := o.sum / (o.length : ℚ)
  { mean := μ
    median := medianVal o
    percentile_10 := pctlVal o 10
    percentile_25 := pctlVal o 25
    percentile_50 := pctlVal o 50
    percentile_75 := pctlVal o 75
    percentile_90 := pctlVal o 90
    var_sq := (o.map (fun x => (x - μ) ^ 2)).sum / (o.length : ℚ)
    success_rate := sr
    all_outcomes := o }

/-- Assemble the statistics record both simulators return, from the per-run
ending values.  On an empty outcome array numpy's percentile raises
(IndexError), modelled as `none`. -/
def mcStats (outcomes : List ℚ) (success_rate : ℚ) : Option MonteCarloResults := do
  let med ← medianQ outcomes
  let p10 ← percentileQ outcomes 10
  let p25 ← percentileQ outcomes 25
  let p50 ← percentileQ outcomes 50
  let p75 ← percentileQ outcomes 75
  let p90 ← percentileQ outcomes 90
  let μ := outcomes.sum / (outcomes.length : ℚ)
  pure { mean := μ
         median := med
         percentile_10 := p10
         percentile_25 := p25
         percentile_50 := p50
         percentile_75 := p75
         percentile_90 := p90
         var_sq := (outcomes.map (fun x => (x - μ) ^ 2)).sum / (outcomes.length : ℚ)
         success_rate := success_rate
         all_outcomes := outcomes }

/-- One run of the accumulation simulator: state `(balance, contribution)`
after each month.  Each month applies `balance * (1 + return) + contribution`
and raises the contribution once per 12 months when the growth rate is
positive.  `ret m` is the value `np.random.normal` produced for month `m`. -/
def accumRunState (c0 contrib0 growth : ℚ) (ret : ℕ → ℚ) (n : ℕ) : ℚ × ℚ :=
  iterSteps (fun m s =>
    let b := s.1 * (1 + ret m) + s.2
    let c := if (m + 1) % 12 = 0 ∧ 0 < growth then s.2 * (1 + growth) else s.2
    (b, c)) n (c0, contrib0)

/-- Embedding of `run_accumulation_monte_carlo` (monte_carlo.py, lines
33-127).  `draws i m` is the random monthly return of run `i`, month `m`;
the expected return and variance parameterize the distribution those draws
come from and do not otherwise enter the balance updates.  The year-by-year
band bookkeeping, which feeds no claimed field, is omitted. -/
def run_accumulation_monte_carlo (current_savings monthly_contribution : ℚ)
    (years : ℕ) (_expected_return _variance : ℚ) (runs : ℕ)
    (annual_contribution_increase : ℚ) (draws : ℕ → ℕ → ℚ) :
    Option MonteCarloResults :=
  let months := years * 12
  let growth := annual_contribution_increase / 100
  let outcomes := (List.range runs).map (fun i =>
    (accumRunState current_savings monthly_contribution growth (draws i) months).1)
  mcStats outcomes 100

/-- One run of the withdrawal simulator: state
`(balance, current_withdrawal, depleted)` after each month.  At months
12, 24, … the withdrawal inflates by the full annual inflation rate; then
the return applies, the withdrawal is subtracted, and a balance ≤ 0 is
clamped to 0 and marked depleted. -/
def withdrawRunState (b0 mw annual_inflation : ℚ) (ret : ℕ → ℚ) (n : ℕ) :
    ℚ × ℚ × Bool :=
  iterSteps (fun m s =>
    let w := if 0 < m ∧ m % 12 = 0 then s.2.1 * (1 + annual_inflation) else s.2.1
    let b := s.1 * (1 + ret m) - w
    if b ≤ 0 then ((0 : ℚ), w, true) else (b, w, s.2.2)) n (b0, mw, false)

/-- Embedding of `run_withdrawal_monte_carlo` (monte_carlo.py, lines
130-248).  `success_rate = (successes / runs) * 100` raises
ZeroDivisionError when `runs = 0`, modelled as `none`.  The year-by-year
band bookkeeping (including its early `break`, which cannot change any
run's ending balance: a depleted balance is 0 and stays 0) is omitted. -/
def run_withdrawal_monte_carlo (starting_portfolio annual_withdrawal : ℚ)
    (years : ℕ) (_expected_return _variance inflation_rate : ℚ) (runs : ℕ)
    (draws : ℕ → ℕ → ℚ) : Option MonteCarloResults :=
  let months := years * 12
  let annual_inflation := inflation_rate / 100
  let monthly_withdrawal := annual_withdrawal / 12
  let finals := (List.range runs).map (fun i =>
    withdrawRunState starting_portfolio monthly_withdrawal annual_inflation
      (draws i) months)
  let outcomes := finals.map (·.1)
  let successes := (finals.filter (fun s => !s.2.2)).length
  if runs = 0 then none
  else mcStats outcomes (((successes : ℚ) / (runs : ℚ)) * 100)

/- ===== Helper lemmas: sorting and percentile interpolation ===== -/

theorem sortQ_sorted (l : List ℚ) : (sortQ l).Sorted (· ≤ ·) :=
  List.sorted_insertionSort _ l

theorem sortQ_length (l : List ℚ) : (sortQ l).length = l.length :=
  (List.perm_insertionSort _ l).length_eq

theorem sorted_getD_mono {s : List ℚ} (hs : s.Sorted (· ≤ ·)) {i j : ℕ}
    (hij : i ≤ j) (hj : j < s.length) : s.getD i 0 ≤ s.getD j 0 := by
  have hi : i < s.length := lt_of_le_of_lt hij hj
  have h := hs.rel_get_of_le (a := ⟨i, hi⟩) (b := ⟨j, hj⟩) (Fin.mk_le_mk.mpr hij)
  rw [List.getD_eq_getElem s 0 hi, List.getD_eq_getElem s 0 hj]
  simpa [List.get_eq_getElem] using h

theorem interpAt_def (s : List ℚ) (h : ℚ) :
    interpAt s h = s.getD (Int.floor h).toNat 0 +
      (h - Int.floor h) *
        (s.getD (Int.ceil h).toNat 0 - s.getD (Int.floor h).toNat 0) := rfl

theorem length_pos_of_index (s : List ℚ) (h : ℚ) (h0 : 0 ≤ h)
    (hn : h ≤ (s.length : ℚ) - 1) : 1 ≤ s.length := by
  by_contra hl
  push_neg at hl
  have hz : s.length = 0 := by omega
  rw [hz] at hn
  norm_num at hn
  linarith

theorem pctl_index_facts (s : List ℚ) (h : ℚ) (h0 : 0 ≤ h)
    (hn : h ≤ (s.length : ℚ) - 1) :
    (Int.floor h).toNat ≤ (Int.ceil h).toNat ∧
    (Int.ceil h).toNat < s.length ∧
    ((Int.floor h).toNat : ℤ) = Int.floor h ∧
    ((Int.ceil h).toNat : ℤ) = Int.ceil h := by
  have hf0 : 0 ≤ Int.floor h := Int.floor_nonneg.mpr h0
  have hc0 : 0 ≤ Int.ceil h := le_trans hf0 (Int.floor_le_ceil h)
  have hlen : 1 ≤ s.length := length_pos_of_index s h h0 hn
  have hcle : Int.ceil h ≤ (s.length : ℤ) - 1 := by
    rw [Int.ceil_le]
    push_cast
    exact hn
  have hfc := Int.floor_le_ceil h
  refine ⟨?_, ?_, Int.toNat_of_nonneg hf0, Int.toNat_of_nonneg hc0⟩ <;> omega

theorem interpAt_ge (s : List ℚ) (hs : s.Sorted (· ≤ ·)) (h : ℚ)
    (h0 : 0 ≤ h) (hn : h ≤ (s.length : ℚ) - 1) :
    s.getD (Int.floor h).toNat 0 ≤ interpAt s h := by
  obtain ⟨hij, hjlt, _, _⟩ := pctl_index_facts s h h0 hn
  have hab := sorted_getD_mono hs hij hjlt
  have hγ0 : 0 ≤ h - (Int.floor h : ℚ) := by
    have := Int.floor_le h
    linarith
  rw [interpAt_def]
  have := mul_nonneg hγ0 (sub_nonneg.mpr hab)
  linarith

theorem interpAt_le (s : List ℚ) (hs : s.Sorted (· ≤ ·)) (h : ℚ)
    (h0 : 0 ≤ h) (hn : h ≤ (s.length : ℚ) - 1) :
    interpAt s h ≤ s.getD (Int.ceil h).toNat 0 := by
  obtain ⟨hij, hjlt, _, _⟩ := pctl_index_facts s h h0 hn
  have hab := sorted_getD_mono hs hij hjlt
  have hγ1 : h - (Int.floor h : ℚ) ≤ 1 := by
    have := Int.lt_floor_add_one h
    linarith
  rw [interpAt_def]
  have := mul_nonneg (by linarith : (0:ℚ) ≤ 1 - (h - (Int.floor h : ℚ)))
    (sub_nonneg.mpr hab)
  nlinarith

theorem interpAt_mono (s : List ℚ) (hs : s.Sorted (· ≤ ·)) {h1 h2 : ℚ}
    (h0 : 0 ≤ h1) (h12 : h1 ≤ h2) (hn : h2 ≤ (s.length : ℚ) - 1) :
    interpAt s h1 ≤ interpAt s h2 := by
  have h20 : 0 ≤ h2 := le_trans h0 h12
  have hn1 : h1 ≤ (s.length : ℚ) - 1 := le_trans h12 hn
  by_cases hff : Int.floor h1 = Int.floor h2
  · by_cases hint : (Int.floor h1 : ℚ) = h1
    · have hz : h1 - ((Int.floor h1 : ℤ) : ℚ) = 0 := by
        rw [hint]
        ring
      have heq : interpAt s h1 = s.getD (Int.floor h1).toNat 0 := by
        rw [interpAt_def, hz]
        ring
      rw [heq, hff]
      exact interpAt_ge s hs h2 h20 hn
    · have hlt1 : (Int.floor h1 : ℚ) < h1 :=
        lt_of_le_of_ne (Int.floor_le h1) hint
      have hlt2 : (Int.floor h2 : ℚ) < h2 := by
        rw [← hff]
        linarith
      have hc1 : Int.ceil h1 = Int.floor h1 + 1 := by
        have hlow : Int.floor h1 < Int.ceil h1 := Int.lt_ceil.mpr hlt1
        have := Int.ceil_le_floor_add_one h1
        omega
      have hc2 : Int.ceil h2 = Int.floor h2 + 1 := by
        have hlow : Int.floor h2 < Int.ceil h2 := Int.lt_ceil.mpr hlt2
        have := Int.ceil_le_floor_add_one h2
        omega
      obtain ⟨hij2, hjlt2, _, _⟩ := pctl_index_facts s h2 h20 hn
      have hab := sorted_getD_mono hs hij2 hjlt2
      have hcc : Int.ceil h1 = Int.ceil h2 := by omega
      rw [interpAt_def, interpAt_def, hff, hcc]
      have := mul_le_mul_of_nonneg_right
        (by linarith : h1 - ((Int.floor h2 : ℤ) : ℚ) ≤ h2 - ((Int.floor h2 : ℤ) : ℚ))
        (sub_nonneg.mpr hab)
      linarith
  · have hle : Int.floor h1 ≤ Int.floor h2 := Int.floor_le_floor h12
    have hlt : Int.floor h1 < Int.floor h2 := lt_of_le_of_ne hle hff
    have h1up := interpAt_le s hs h1 h0 hn1
    have h2low := interpAt_ge s hs h2 h20 hn
    obtain ⟨hij1, hjlt1, hcf1, hcc1⟩ := pctl_index_facts s h1 h0 hn1
    obtain ⟨hij2, hjlt2, hcf2, hcc2⟩ := pctl_index_facts s h2 h20 hn
    have hcf : Int.ceil h1 ≤ Int.floor h1 + 1 := Int.ceil_le_floor_add_one h1
    have hfc2 := Int.floor_le_ceil h2
    have hmid : s.getD (Int.ceil h1).toNat 0 ≤ s.getD (Int.floor h2).toNat 0 := by
      apply sorted_getD_mono hs
      · omega
      · omega
    linarith

theorem pctlVal_mono (l : List ℚ) (hl : l ≠ []) {p q : ℚ}
    (hp : 0 ≤ p) (hpq : p ≤ q) (hq : q ≤ 100) : pctlVal l p ≤ pctlVal l q := by
  have hn1 : 0 < l.length := List.length_pos.mpr hl
  have hx : (0:ℚ) ≤ (l.length : ℚ) - 1 := by
    have : (1:ℚ) ≤ (l.length : ℚ) := by exact_mod_cast hn1
    linarith
  unfold pctlVal pctlIndex
  apply interpAt_mono _ (sortQ_sorted l)
  · exact div_nonneg (mul_nonneg hp hx) (by norm_num)
  · have := mul_le_mul_of_nonneg_right hpq hx
    linarith
  · rw [sortQ_length]
    have := mul_le_mul_of_nonneg_right hq hx
    linarith

theorem pctlVal_50_eq_median (l : List ℚ) (hl : l ≠ []) :
    pctlVal l 50 = medianVal l := by
  have hn1 : 0 < l.length := List.length_pos.mpr hl
  have hlen := sortQ_length l
  unfold pctlVal medianVal
  rw [← hlen] at hn1 ⊢
  rcases Nat.even_or_odd (sortQ l).length with he | ho
  · obtain ⟨k, hk⟩ := he
    have hk1 : 1 ≤ k := by omega
    have hidx : pctlIndex (sortQ l).length 50 = (k : ℚ) - 1/2 := by
      unfold pctlIndex
      rw [hk]
      push_cast
      ring
    have hfl : Int.floor ((k:ℚ) - 1/2) = (k:ℤ) - 1 := by
      rw [Int.floor_eq_iff]
      constructor
      · push_cast
        linarith
      · push_cast
        linarith
    have hcl : Int.ceil ((k:ℚ) - 1/2) = (k:ℤ) := by
      rw [Int.ceil_eq_iff]
      constructor
      · push_cast
        linarith
      · push_cast
        linarith
    have ht1 : ((k:ℤ) - 1).toNat = k - 1 := by omega
    have ht2 : ((k:ℤ)).toNat = k := by omega
    have hd1 : (sortQ l).length / 2 - 1 = k - 1 := by omega
    have hd2 : (sortQ l).length / 2 = k := by omega
    rw [hidx, interpAt_def, hfl, hcl, ht1, ht2,
      if_neg (by omega : ¬ (sortQ l).length % 2 = 1), hd1, hd2]
    push_cast [hk1]
    ring
  · obtain ⟨k, hk⟩ := ho
    have hidx : pctlIndex (sortQ l).length 50 = (k : ℚ) := by
      unfold pctlIndex
      rw [hk]
      push_cast
      ring
    have hd : (sortQ l).length / 2 = k := by omega
    rw [hidx, interpAt_def, Int.floor_natCast, Int.ceil_natCast,
      Int.toNat_natCast, if_pos (by omega : (sortQ l).length % 2 = 1), hd]
    ring

theorem mcStats_nil (sr : ℚ) : mcStats [] sr = none := rfl

theorem mcStats_cons (a : ℚ) (l : List ℚ) (sr : ℚ) :
    mcStats (a :: l) sr = some (mcStatsVal (a :: l) sr) := rfl

theorem mcStats_eq_some {o : List ℚ} {sr : ℚ} {r : MonteCarloResults}
    (h : mcStats o sr = some r) : o ≠ [] ∧ r = mcStatsVal o sr := by
  cases o with
  | nil =>
    rw [mcStats_nil] at h
    exact absurd h (by simp)
  | cons a l =>
    rw [mcStats_cons] at h
    exact ⟨by simp, (Option.some.inj h).symm⟩

theorem mcStatsVal_ordered (o : List ℚ) (ho : o ≠ []) (sr : ℚ) :
    (mcStatsVal o sr).percentile_10 ≤ (mcStatsVal o sr).percentile_25 ∧
    (mcStatsVal o sr).percentile_25 ≤ (mcStatsVal o sr).percentile_50 ∧
    (mcStatsVal o sr).percentile_50 ≤ (mcStatsVal o sr).percentile_75 ∧
    (mcStatsVal o sr).percentile_75 ≤ (mcStatsVal o sr).percentile_90 ∧
    (mcStatsVal o sr).percentile_50 = (mcStatsVal o sr).median :=
  ⟨pctlVal_mono o ho (by norm_num) (by norm_num) (by norm_num),
   pctlVal_mono o ho (by norm_num) (by norm_num) (by norm_num),
   pctlVal_mono o ho (by norm_num) (by norm_num) (by norm_num),
   pctlVal_mono o ho (by norm_num) (by norm_num) (by norm_num),
   pctlVal_50_eq_median o ho⟩

/- ===== Helper lemmas: late-retirement depletion flag ===== -/

theorem lateStateAfter_succ (d : LateInput) (n : ℕ) :
    lateStateAfter d (n + 1) = lateStep d n (lateStateAfter d n) := rfl

theorem lateStep_frozen (d : LateInput) (m : ℕ) (s : LateState)
    (h : s.depleted = true) : lateStep d m s = s := by
  simp [lateStep, h]

theorem lateStep_depleted_flag (d : LateInput) (m : ℕ) (s : LateState)
    (h : s.depleted = false) :
    (lateStep d m s).depleted = decide ((lateStep d m s).portfolio ≤ 0) := by
  simp [lateStep, h]

/-- The `portfolio_depleted_early` flag after `n` months is set exactly when
some month among the first `n` ended with the balance at or below zero. -/
theorem late_depleted_iff (d : LateInput) (n : ℕ) :
    (lateStateAfter d n).depleted = true ↔
      ∃ k, k < n ∧ (lateStateAfter d (k + 1)).portfolio ≤ 0 := by
  induction n with
  | zero =>
    simp [lateStateAfter, iterSteps, lateInit]
  | succ n ih =>
    by_cases hdep : (lateStateAfter d n).depleted = true
    · have hfr : lateStateAfter d (n + 1) = lateStateAfter d n := by
        rw [lateStateAfter_succ, lateStep_frozen d n _ hdep]
      rw [hfr]
      constructor
      · intro _
        obtain ⟨k, hk, hp⟩ := ih.mp hdep
        exact ⟨k, by omega, hp⟩
      · intro _
        exact hdep
    · have hdep' : (lateStateAfter d n).depleted = false := by
        simpa using hdep
      rw [lateStateAfter_succ, lateStep_depleted_flag d n _ hdep',
        decide_eq_true_eq]
      constructor
      · intro hp
        exact ⟨n, by omega, by rw [lateStateAfter_succ]; exact hp⟩
      · rintro ⟨k, hk, hp⟩
        rcases Nat.lt_succ_iff_lt_or_eq.mp hk with hk' | rfl
        · exact absurd (ih.mpr ⟨k, hk', hp⟩) (by simp [hdep'])
        · rw [lateStateAfter_succ] at hp
          exact hp

/- ===== Helper lemmas: accumulation loop invariants ===== -/

theorem accumStateAfter_succ (d : AccumulationInput) (n : ℕ) :
    accumStateAfter d (n + 1) = accumStep d n (accumStateAfter d n) := rfl

/-- The running employer match always equals the running personal
contribution times the match rate, and the employer total is the personal
total times the match rate. -/
theorem accum_match_invariant (d : AccumulationInput) (n : ℕ) :
    (accumStateAfter d n).cur_match =
      (accumStateAfter d n).cur_contribution * (d.employer_match_rate / 100) ∧
    (accumStateAfter d n).total_employer =
      (accumStateAfter d n).total_personal * (d.employer_match_rate / 100) := by
  induction n with
  | zero =>
    constructor
    · rfl
    · simp [accumStateAfter, iterSteps, accumInit]
  | succ n ih =>
    obtain ⟨ih1, ih2⟩ := ih
    rw [accumStateAfter_succ]
    simp only [accumStep]
    split
    · refine ⟨rfl, ?_⟩
      simp only
      rw [ih1, ih2]
      ring
    · refine ⟨ih1, ?_⟩
      simp only
      rw [ih1, ih2]
      ring

/-- With a zero expected return every contribution's future value is the
contribution itself, so the accumulated future value of contributions is
exactly the sum of all personal and employer contributions. -/
theorem accum_zero_rate_fv (d : AccumulationInput)
    (h : d.expected_return = 0) (n : ℕ) :
    (accumStateAfter d n).fv_contributions =
      (accumStateAfter d n).total_personal +
        (accumStateAfter d n).total_employer := by
  induction n with
  | zero =>
    simp [accumStateAfter, iterSteps, accumInit]
  | succ n ih =>
    rw [accumStateAfter_succ]
    simp only [accumStep, h]
    norm_num
    split <;> · simp only
                linarith

/- ===== Claim theorems ===== -/

/-- C2: for every deterministic phase calculator, a zero-duration input
(start-age field equal to the end-age / life-expectancy field) yields an
ending value equal to the starting value and all flow totals (contribution,
withdrawal, gain and income totals) equal to 0; for late retirement a
nonnegative starting portfolio is assumed, since the code clamps the
reported ending value at 0. -/
theorem zero_duration_identity :
    (∀ d : AccumulationInput, d.retirement_start_age = d.current_age →
      (calculate_accumulation_phase d).future_value = d.current_savings ∧
      (calculate_accumulation_phase d).total_personal_contributions = 0 ∧
      (calculate_accumulation_phase d).total_employer_contributions = 0 ∧
      (calculate_accumulation_phase d).investment_gains = 0) ∧
    (∀ d : PhasedInput, d.full_retirement_age = d.phase_start_age →
      (calculate_phased_retirement_phase d).ending_portfolio =
        d.starting_portfolio ∧
      (calculate_phased_retirement_phase d).total_contributions = 0 ∧
      (calculate_phased_retirement_phase d).total_withdrawals = 0 ∧
      (calculate_phased_retirement_phase d).total_part_time_income = 0 ∧
      (calculate_phased_retirement_phase d).investment_gains = 0 ∧
      (calculate_phased_retirement_phase d).net_change = 0) ∧
    (∀ d : ActiveInput,
      d.active_retirement_end_age = d.active_retirement_start_age →
      (calculate_active_retirement_phase d).ending_portfolio =
        d.starting_portfolio ∧
      (calculate_active_retirement_phase d).total_withdrawals = 0 ∧
      (calculate_active_retirement_phase d).total_social_security = 0 ∧
      (calculate_active_retirement_phase d).total_pension = 0 ∧
      (calculate_active_retirement_phase d).total_investment_gains = 0 ∧
      (calculate_active_retirement_phase d).average_annual_withdrawal = 0) ∧
    (∀ d : LateInput, d.life_expectancy = d.late_retirement_start_age →
      0 ≤ d.starting_portfolio →
      (calculate_late_retirement_phase d).ending_portfolio =
        d.starting_portfolio ∧
      (calculate_late_retirement_phase d).total_withdrawals = 0 ∧
      (calculate_late_retirement_phase d).total_ltc_costs = 0 ∧
      (calculate_late_retirement_phase d).total_ltc_insurance_paid = 0 ∧
      (calculate_late_retirement_phase d).total_social_security = 0 ∧
      (calculate_late_retirement_phase d).total_investment_gains = 0 ∧
      (calculate_late_retirement_phase d).net_ltc_out_of_pocket = 0) := by
  refine ⟨?_, ?_, ?_, ?_⟩
  · intro d h
    refine ⟨?_, ?_, ?_, ?_⟩ <;>
      simp [calculate_accumulation_phase, accumStateAfter, iterSteps,
        accumInit, accumMonths, h]
  · intro d h
    refine ⟨?_, ?_, ?_, ?_, ?_, ?_⟩ <;>
      simp [calculate_phased_retirement_phase, phasedMonths, iterSteps, h]
  · intro d h
    refine ⟨?_, ?_, ?_, ?_, ?_, ?_⟩ <;>
      simp [calculate_active_retirement_phase, activeStateAfter, activeMonths,
        iterSteps, activeInit, h]
  · intro d h h0
    refine ⟨?_, ?_, ?_, ?_, ?_, ?_, ?_⟩ <;>
      simp [calculate_late_retirement_phase, lateStateAfter, lateMonths,
        iterSteps, lateInit, h, max_eq_right h0]

/-- Witness for C2: the four calculators at concrete zero-duration
inputs. -/
theorem zero_duration_identity_witness :
    (calculate_accumulation_phase ⟨40, 40, 1000, 100, 50, 7, 2⟩).future_value
      = 1000 ∧
    (calculate_phased_retirement_phase
      ⟨800, 60, 60, 50, 1200, 10, 5⟩).ending_portfolio = 800 ∧
    (calculate_active_retirement_phase
      ⟨900, 65, 65, 100, 10, 5, 5, 6, 3⟩).ending_portfolio = 900 ∧
    (calculate_late_retirement_phase
      ⟨700, 85, 85, 1, 2, 3, 4, 5, 6, 3, 10⟩).ending_portfolio = 700 :=
  ⟨(zero_duration_identity.1 _ rfl).1,
   (zero_duration_identity.2.1 _ rfl).1,
   (zero_duration_identity.2.2.1 _ rfl).1,
   (zero_duration_identity.2.2.2 _ rfl (by norm_num)).1⟩

/-- C3: `calculate_late_retirement_phase` reports `portfolio_sufficient`
exactly when the balance stayed strictly above zero at the end of every
month of the phase and the ending portfolio meets the desired legacy; in
particular a balance of exactly zero at the final month counts as depleted,
because depletion is evaluated at every month, not only at the end. -/
theorem late_portfolio_sufficient_iff (d : LateInput) :
    (calculate_late_retirement_phase d).portfolio_sufficient = true ↔
      ((∀ k, k < lateMonths d → 0 < (lateStateAfter d (k + 1)).portfolio) ∧
       d.desired_legacy ≤ (calculate_late_retirement_phase d).ending_portfolio) := by
  have hsuf : (calculate_late_retirement_phase d).portfolio_sufficient =
      (!(lateStateAfter d (lateMonths d)).depleted &&
        decide (d.desired_legacy ≤
          max 0 (lateStateAfter d (lateMonths d)).portfolio)) := rfl
  have hend : (calculate_late_retirement_phase d).ending_portfolio =
      max 0 (lateStateAfter d (lateMonths d)).portfolio := rfl
  rw [hsuf, hend, Bool.and_eq_true, Bool.not_eq_true', decide_eq_true_eq]
  constructor
  · rintro ⟨hnd, hleg⟩
    refine ⟨?_, hleg⟩
    intro k hk
    by_contra hp
    push_neg at hp
    exact absurd ((late_depleted_iff d (lateMonths d)).mpr ⟨k, hk, hp⟩)
      (by simp [hnd])
  · rintro ⟨hall, hleg⟩
    refine ⟨?_, hleg⟩
    by_contra hnd
    rw [Bool.not_eq_false] at hnd
    obtain ⟨k, hk, hp⟩ := (late_depleted_iff d (lateMonths d)).mp hnd
    exact absurd hp (not_le.mpr (hall k hk))

/-- Witness for C3: a concrete never-depleted input satisfies the
right-hand side of the equivalence. -/
theorem late_portfolio_sufficient_iff_witness :
    (∀ k, k < lateMonths ⟨1200, 85, 86, 0, 0, 0, 0, 0, 0, 0, 0⟩ →
      0 < (lateStateAfter ⟨1200, 85, 86, 0, 0, 0, 0, 0, 0, 0, 0⟩
        (k + 1)).portfolio) ∧
    (0 : ℚ) ≤ (calculate_late_retirement_phase
      ⟨1200, 85, 86, 0, 0, 0, 0, 0, 0, 0, 0⟩).ending_portfolio :=
  (late_portfolio_sufficient_iff ⟨1200, 85, 86, 0, 0, 0, 0, 0, 0, 0, 0⟩).mp
    (by norm_num [calculate_late_retirement_phase, lateStateAfter, lateMonths,
      iterSteps, lateStep, lateInit])

/-- C7: with a zero expected return, the accumulation phase's future value
is exactly the starting savings plus the sum of all monthly personal
contributions and employer matches, and the employer total is the personal
total times the match rate over 100 — exact rational arithmetic, no drift. -/
theorem zero_rate_additivity (d : AccumulationInput)
    (h : d.expected_return = 0) :
    (calculate_accumulation_phase d).future_value =
      d.current_savings +
      (calculate_accumulation_phase d).total_personal_contributions +
      (calculate_accumulation_phase d).total_employer_contributions ∧
    (calculate_accumulation_phase d).total_employer_contributions =
      (calculate_accumulation_phase d).total_personal_contributions *
        (d.employer_match_rate / 100) := by
  constructor
  · show d.current_savings *
        (1 + d.expected_return / 100 / 12) ^
          ((d.retirement_start_age - d.current_age) * 12) +
        (accumStateAfter d (accumMonths d)).fv_contributions =
      d.current_savings + (accumStateAfter d (accumMonths d)).total_personal +
        (accumStateAfter d (accumMonths d)).total_employer
    rw [h, accum_zero_rate_fv d h (accumMonths d)]
    norm_num
    ring
  · exact (accum_match_invariant d (accumMonths d)).2

/-- Witness for C7: a concrete zero-return input, where the future value is
savings 1000 plus 1200 of contributions plus 600 of employer match. -/
theorem zero_rate_additivity_witness :
    (calculate_accumulation_phase ⟨30, 31, 1000, 100, 50, 0, 0⟩).future_value =
      1000 +
      (calculate_accumulation_phase
        ⟨30, 31, 1000, 100, 50, 0, 0⟩).total_personal_contributions +
      (calculate_accumulation_phase
        ⟨30, 31, 1000, 100, 50, 0, 0⟩).total_employer_contributions :=
  (zero_rate_additivity ⟨30, 31, 1000, 100, 50, 0, 0⟩ rfl).1

/-- C9: there is a valid phased-retirement input with positive duration for
which `calculate_phased_retirement_phase` returns a strictly negative
ending portfolio — the monthly withdrawal is subtracted every month with no
depletion clamp at zero, unlike the active and late retirement phases. -/
theorem phased_retirement_negative_ending :
    ∃ d : PhasedInput, 0 < d.full_retirement_age - d.phase_start_age ∧
      (calculate_phased_retirement_phase d).ending_portfolio < 0 := by
  refine ⟨⟨100, 60, 61, 0, 2400, 0, 0⟩, by norm_num, ?_⟩
  norm_num [calculate_phased_retirement_phase, phasedMonths, iterSteps,
    phasedStep]

/-- C10: with a positive duration, a zero starting portfolio and all costs,
income and legacy target zero, `calculate_late_retirement_phase` reports
`portfolio_sufficient = false`: the depleted-early flag fires whenever the
balance is ≤ 0 at the end of a month's processing, even with no shortfall,
so a zero starting balance can never be judged sufficient. -/
theorem late_zero_start_insufficient (a b : ℤ) (er ir : ℚ) (hab : a < b) :
    (calculate_late_retirement_phase
      ⟨0, a, b, 0, 0, 0, 0, 0, er, ir, 0⟩).portfolio_sufficient = false := by
  have hm : 0 < lateMonths ⟨0, a, b, 0, 0, 0, 0, 0, er, ir, 0⟩ := by
    show 0 < ((b - a) * 12).toNat
    omega
  have hp1 : (lateStateAfter ⟨0, a, b, 0, 0, 0, 0, 0, er, ir, 0⟩ 1).portfolio ≤ 0 := by
    show (lateStep ⟨0, a, b, 0, 0, 0, 0, 0, er, ir, 0⟩ 0
      (lateInit ⟨0, a, b, 0, 0, 0, 0, 0, er, ir, 0⟩)).portfolio ≤ 0
    simp [lateStep, lateInit]
  have hdep : (lateStateAfter ⟨0, a, b, 0, 0, 0, 0, 0, er, ir, 0⟩
      (lateMonths ⟨0, a, b, 0, 0, 0, 0, 0, er, ir, 0⟩)).depleted = true :=
    (late_depleted_iff _ _).mpr ⟨0, hm, hp1⟩
  simp [calculate_late_retirement_phase, hdep]

/-- Witness for C10: concrete ages 85 to 95 with 5% return, 3% inflation. -/
theorem late_zero_start_insufficient_witness :
    (calculate_late_retirement_phase
      ⟨0, 85, 95, 0, 0, 0, 0, 0, 5, 3, 0⟩).portfolio_sufficient = false :=
  late_zero_start_insufficient 85 95 5 3 (by norm_num)

/-- C1: every result `run_accumulation_monte_carlo` returns has
`success_rate` exactly 100, for any inputs and any random draws: the code
assigns the literal 100 unconditionally — accumulation has no failure
condition. -/
theorem accumulation_success_rate_100
    (current_savings monthly_contribution : ℚ) (years : ℕ)
    (expected_return variance : ℚ) (runs : ℕ)
    (annual_contribution_increase : ℚ) (draws : ℕ → ℕ → ℚ)
    (r : MonteCarloResults)
    (h : run_accumulation_monte_carlo current_savings monthly_contribution
      years expected_return variance runs annual_contribution_increase draws
      = some r) :
    r.success_rate = 100 := by
  simp only [run_accumulation_monte_carlo] at h
  obtain ⟨-, rfl⟩ := mcStats_eq_some h
  rfl

/-- Witness for C1: a concrete one-run, zero-year call. -/
theorem accumulation_success_rate_100_witness :
    (⟨500, 500, 500, 500, 500, 500, 500, 0, 100, [500]⟩ :
      MonteCarloResults).success_rate = 100 :=
  accumulation_success_rate_100 500 0 0 7 2 1 0 (fun _ _ => 0) _ (by
    norm_num [run_accumulation_monte_carlo, accumRunState, iterSteps, mcStats,
      mcStatsVal, medianQ, medianVal, percentileQ, pctlVal, pctlIndex,
      interpAt, sortQ])

/-- C6: every result either simulator returns satisfies
percentile_10 ≤ percentile_25 ≤ percentile_50 ≤ percentile_75 ≤
percentile_90, and percentile_50 equals median exactly (in the exact
rational embedding of numpy's linear-interpolation percentile and
median). -/
theorem mc_percentile_ordering :
    (∀ (cs mc : ℚ) (years : ℕ) (er v : ℚ) (runs : ℕ) (inc : ℚ)
      (draws : ℕ → ℕ → ℚ) (r : MonteCarloResults),
      run_accumulation_monte_carlo cs mc years er v runs inc draws = some r →
      (r.percentile_10 ≤ r.percentile_25 ∧ r.percentile_25 ≤ r.percentile_50 ∧
       r.percentile_50 ≤ r.percentile_75 ∧ r.percentile_75 ≤ r.percentile_90 ∧
       r.percentile_50 = r.median)) ∧
    (∀ (sp aw : ℚ) (years : ℕ) (er v ir : ℚ) (runs : ℕ)
      (draws : ℕ → ℕ → ℚ) (r : MonteCarloResults),
      run_withdrawal_monte_carlo sp aw years er v ir runs draws = some r →
      (r.percentile_10 ≤ r.percentile_25 ∧ r.percentile_25 ≤ r.percentile_50 ∧
       r.percentile_50 ≤ r.percentile_75 ∧ r.percentile_75 ≤ r.percentile_90 ∧
       r.percentile_50 = r.median)) := by
  constructor
  · intro cs mc years er v runs inc draws r h
    simp only [run_accumulation_monte_carlo] at h
    obtain ⟨hne, rfl⟩ := mcStats_eq_some h
    exact mcStatsVal_ordered _ hne _
  · intro sp aw years er v ir runs draws r h
    simp only [run_withdrawal_monte_carlo] at h
    split at h
    · exact absurd h (by simp)
    · obtain ⟨hne, rfl⟩ := mcStats_eq_some h
      exact mcStatsVal_ordered _ hne _

/-- Witness for C6: a concrete two-run, zero-year accumulation call. -/
theorem mc_percentile_ordering_witness :
    ((⟨300, 300, 300, 300, 300, 300, 300, 0, 100, [300, 300]⟩ :
      MonteCarloResults).percentile_10 ≤
      (⟨300, 300, 300, 300, 300, 300, 300, 0, 100, [300, 300]⟩ :
        MonteCarloResults).percentile_25 ∧
     (⟨300, 300, 300, 300, 300, 300, 300, 0, 100, [300, 300]⟩ :
      MonteCarloResults).percentile_25 ≤
      (⟨300, 300, 300, 300, 300, 300, 300, 0, 100, [300, 300]⟩ :
        MonteCarloResults).percentile_50 ∧
     (⟨300, 300, 300, 300, 300, 300, 300, 0, 100, [300, 300]⟩ :
      MonteCarloResults).percentile_50 ≤
      (⟨300, 300, 300, 300, 300, 300, 300, 0, 100, [300, 300]⟩ :
        MonteCarloResults).percentile_75 ∧
     (⟨300, 300, 300, 300, 300, 300, 300, 0, 100, [300, 300]⟩ :
      MonteCarloResults).percentile_75 ≤
      (⟨300, 300, 300, 300, 300, 300, 300, 0, 100, [300, 300]⟩ :
        MonteCarloResults).percentile_90 ∧
     (⟨300, 300, 300, 300, 300, 300, 300, 0, 100, [300, 300]⟩ :
      MonteCarloResults).percentile_50 =
      (⟨300, 300, 300, 300, 300, 300, 300, 0, 100, [300, 300]⟩ :
        MonteCarloResults).median) :=
  mc_percentile_ordering.1 300 0 0 7 2 2 0 (fun _ _ => 0) _ (by
    have c1 : ⌈(1/10 : ℚ)⌉ = 1 := by rw [Int.ceil_eq_iff]; norm_num
    have c2 : ⌈(1/4 : ℚ)⌉ = 1 := by rw [Int.ceil_eq_iff]; norm_num
    have c3 : ⌈(1/2 : ℚ)⌉ = 1 := by rw [Int.ceil_eq_iff]; norm_num
    have c4 : ⌈(3/4 : ℚ)⌉ = 1 := by rw [Int.ceil_eq_iff]; norm_num
    have c5 : ⌈(9/10 : ℚ)⌉ = 1 := by rw [Int.ceil_eq_iff]; norm_num
    norm_num [run_accumulation_monte_carlo, accumRunState, iterSteps, mcStats,
      mcStatsVal, medianQ, medianVal, percentileQ, pctlVal, pctlIndex,
      interpAt, sortQ, List.insertionSort, List.orderedInsert, List.replicate,
      c1, c2, c3, c4, c5])

/-- C4 (evaluation at the failing input): at `runs = 0` the withdrawal
simulator divides by zero computing the success rate and the accumulation
simulator takes percentiles of an empty array — both raise, modelled as
`none` — whereas a zero-duration call with a positive run count does return
the degenerate result the claim describes: every statistic equals the
starting value and the success rate is 100. -/
theorem mc_degenerate_inputs :
    run_withdrawal_monte_carlo 1000 100 1 5 10 3 0 (fun _ _ => 0) = none ∧
    run_accumulation_monte_carlo 1000 100 1 7 10 0 2 (fun _ _ => 0) = none ∧
    (run_withdrawal_monte_carlo 1000 100 0 5 10 3 4 (fun _ _ => 0)).map
      (fun r => (r.mean, r.median, r.percentile_10, r.percentile_25,
        r.percentile_50, r.percentile_75, r.percentile_90, r.var_sq,
        r.success_rate)) =
      some (1000, 1000, 1000, 1000, 1000, 1000, 1000, 0, 100) := by
  refine ⟨rfl, rfl, ?_⟩
  have c1 : ⌈(3/10 : ℚ)⌉ = 1 := by rw [Int.ceil_eq_iff]; norm_num
  have c2 : ⌈(3/4 : ℚ)⌉ = 1 := by rw [Int.ceil_eq_iff]; norm_num
  have c3 : ⌈(3/2 : ℚ)⌉ = 2 := by rw [Int.ceil_eq_iff]; norm_num
  have c4 : ⌈(9/4 : ℚ)⌉ = 3 := by rw [Int.ceil_eq_iff]; norm_num
  have c5 : ⌈(27/10 : ℚ)⌉ = 3 := by rw [Int.ceil_eq_iff]; norm_num
  have t2 : (2 : ℤ).toNat = 2 := rfl
  have t3 : (3 : ℤ).toNat = 3 := rfl
  norm_num [run_withdrawal_monte_carlo, withdrawRunState, iterSteps, mcStats,
    mcStatsVal, medianQ, medianVal, percentileQ, pctlVal, pctlIndex, interpAt,
    sortQ, List.insertionSort, List.orderedInsert, List.replicate,
    t2, t3, c1, c2, c3, c4, c5]

theorem accumRunState_succ (c0 k0 g : ℚ) (ret : ℕ → ℚ) (n : ℕ) :
    accumRunState c0 k0 g ret (n + 1) =
      ((accumRunState c0 k0 g ret n).1 * (1 + ret n) +
        (accumRunState c0 k0 g ret n).2,
       if (n + 1) % 12 = 0 ∧ 0 < g then
         (accumRunState c0 k0 g ret n).2 * (1 + g)
       else (accumRunState c0 k0 g ret n).2) := rfl

theorem accum_mc_invariant (d : AccumulationInput) (n : ℕ)
    (hn : n ≤ accumMonths d) :
    (accumRunState d.current_savings
        (d.monthly_contribution * (1 + d.employer_match_rate / 100))
        (d.annual_salary_increase / 100)
        (fun _ => d.expected_return / 100 / 12) n).1 *
      (1 + d.expected_return / 100 / 12) ^ (accumMonths d - n) =
      d.current_savings *
        (1 + d.expected_return / 100 / 12) ^ accumMonths d +
      (accumStateAfter d n).fv_contributions ∧
    (accumRunState d.current_savings
        (d.monthly_contribution * (1 + d.employer_match_rate / 100))
        (d.annual_salary_increase / 100)
        (fun _ => d.expected_return / 100 / 12) n).2 =
      (accumStateAfter d n).cur_contribution +
        (accumStateAfter d n).cur_match := by
  induction n with
  | zero =>
    constructor
    · simp [accumRunState, iterSteps, accumStateAfter, accumInit]
    · simp [accumRunState, iterSteps, accumStateAfter, accumInit]
      ring
  | succ n ih =>
    have hn' : n ≤ accumMonths d := by omega
    obtain ⟨ih1, ih2⟩ := ih hn'
    have hmatch := (accum_match_invariant d n).1
    have hpow : (1 + d.expected_return / 100 / 12) ^ (accumMonths d - n) =
        (1 + d.expected_return / 100 / 12) ^ (accumMonths d - n - 1) *
          (1 + d.expected_return / 100 / 12) := by
      conv_lhs =>
        rw [show accumMonths d - n = (accumMonths d - n - 1) + 1 from by omega]
      rw [pow_succ]
    rw [hpow] at ih1
    rw [accumRunState_succ, accumStateAfter_succ]
    simp only [accumStep]
    by_cases hc : (n + 1) % 12 = 0 ∧ 0 < d.annual_salary_increase / 100
    · rw [if_pos hc, if_pos hc]
      constructor
      · simp only
        rw [show accumMonths d - (n + 1) = accumMonths d - n - 1 from by omega]
        linear_combination ih1 +
          (1 + d.expected_return / 100 / 12) ^ (accumMonths d - n - 1) * ih2
      · simp only
        rw [ih2, hmatch]
        ring
    · rw [if_neg hc, if_neg hc]
      constructor
      · simp only
        rw [show accumMonths d - (n + 1) = accumMonths d - n - 1 from by omega]
        linear_combination ih1 +
          (1 + d.expected_return / 100 / 12) ^ (accumMonths d - n - 1) * ih2
      · simp only
        exact ih2


theorem withdrawRunState_succ (b0 mw ai : ℚ) (ret : ℕ → ℚ) (n : ℕ) :
    withdrawRunState b0 mw ai ret (n + 1) =
      (if (withdrawRunState b0 mw ai ret n).1 * (1 + ret n) -
          (if 0 < n ∧ n % 12 = 0 then
            (withdrawRunState b0 mw ai ret n).2.1 * (1 + ai)
          else (withdrawRunState b0 mw ai ret n).2.1) ≤ 0 then
        ((0 : ℚ),
         if 0 < n ∧ n % 12 = 0 then
           (withdrawRunState b0 mw ai ret n).2.1 * (1 + ai)
         else (withdrawRunState b0 mw ai ret n).2.1,
         true)
      else
        ((withdrawRunState b0 mw ai ret n).1 * (1 + ret n) -
          (if 0 < n ∧ n % 12 = 0 then
            (withdrawRunState b0 mw ai ret n).2.1 * (1 + ai)
          else (withdrawRunState b0 mw ai ret n).2.1),
         if 0 < n ∧ n % 12 = 0 then
           (withdrawRunState b0 mw ai ret n).2.1 * (1 + ai)
         else (withdrawRunState b0 mw ai ret n).2.1,
         (withdrawRunState b0 mw ai ret n).2.2)) := rfl

theorem activeStateAfter_succ (d : ActiveInput) (n : ℕ) :
    activeStateAfter d (n + 1) = activeStep d n (activeStateAfter d n) := rfl

theorem max_zero_div_twelve (x : ℚ) : max 0 (x / 12) = max 0 x / 12 := by
  rcases le_total x 0 with hx | hx
  · rw [max_eq_left (by linarith), max_eq_left hx]
    norm_num
  · rw [max_eq_right (by positivity), max_eq_right hx]

theorem withdraw_active_invariant (d : ActiveInput)
    (h0 : d.inflation_rate = 0) (n : ℕ) :
    ((withdrawRunState d.starting_portfolio
        (max 0 (d.annual_expenses + d.annual_healthcare_costs -
          d.social_security_annual - d.pension_annual) / 12)
        (d.inflation_rate / 100)
        (fun _ => d.expected_return / 100 / 12) n).1 =
      (activeStateAfter d n).portfolio) ∧
    ((withdrawRunState d.starting_portfolio
        (max 0 (d.annual_expenses + d.annual_healthcare_costs -
          d.social_security_annual - d.pension_annual) / 12)
        (d.inflation_rate / 100)
        (fun _ => d.expected_return / 100 / 12) n).2.1 =
      max 0 (d.annual_expenses + d.annual_healthcare_costs -
        d.social_security_annual - d.pension_annual) / 12) ∧
    ((activeStateAfter d n).cur_expenses = d.annual_expenses / 12) ∧
    ((activeStateAfter d n).cur_healthcare = d.annual_healthcare_costs / 12) ∧
    ((activeStateAfter d n).stopped = true →
      (activeStateAfter d n).portfolio = 0) := by
  have hmw0 : 0 ≤ max 0 (d.annual_expenses + d.annual_healthcare_costs -
      d.social_security_annual - d.pension_annual) / 12 :=
    div_nonneg (le_max_left 0 _) (by norm_num)
  induction n with
  | zero =>
    refine ⟨rfl, rfl, rfl, rfl, ?_⟩
    intro h
    simp [activeStateAfter, iterSteps, activeInit] at h
  | succ n ih =>
    obtain ⟨ih1, ih2, ih3, ih4, ih5⟩ := ih
    have hw : (if 0 < n ∧ n % 12 = 0 then
        (withdrawRunState d.starting_portfolio
          (max 0 (d.annual_expenses + d.annual_healthcare_costs -
            d.social_security_annual - d.pension_annual) / 12)
          (d.inflation_rate / 100)
          (fun _ => d.expected_return / 100 / 12) n).2.1 *
            (1 + d.inflation_rate / 100)
      else (withdrawRunState d.starting_portfolio
          (max 0 (d.annual_expenses + d.annual_healthcare_costs -
            d.social_security_annual - d.pension_annual) / 12)
          (d.inflation_rate / 100)
          (fun _ => d.expected_return / 100 / 12) n).2.1) =
        max 0 (d.annual_expenses + d.annual_healthcare_costs -
          d.social_security_annual - d.pension_annual) / 12 := by
      split
      · rw [ih2, h0]
        norm_num
      · exact ih2
    rw [withdrawRunState_succ, activeStateAfter_succ, hw, ih1]
    by_cases hstop : (activeStateAfter d n).stopped = true
    · have hdet : activeStep d n (activeStateAfter d n) = activeStateAfter d n := by
        simp [activeStep, hstop]
      have hp0 : (activeStateAfter d n).portfolio = 0 := ih5 hstop
      rw [hdet, hp0]
      rw [if_pos (by linarith :
        (0 : ℚ) * (1 + d.expected_return / 100 / 12) -
          max 0 (d.annual_expenses + d.annual_healthcare_costs -
            d.social_security_annual - d.pension_annual) / 12 ≤ 0)]
      exact ⟨rfl, rfl, ih3, ih4, fun _ => rfl⟩
    · have hstop' : (activeStateAfter d n).stopped = false := by
        simpa using hstop
      have hwn : max 0 ((activeStateAfter d n).cur_expenses +
            (activeStateAfter d n).cur_healthcare -
            (d.social_security_annual / 12 + d.pension_annual / 12)) =
          max 0 (d.annual_expenses + d.annual_healthcare_costs -
            d.social_security_annual - d.pension_annual) / 12 := by
        rw [ih3, ih4, show d.annual_expenses / 12 + d.annual_healthcare_costs / 12 -
          (d.social_security_annual / 12 + d.pension_annual / 12) =
          (d.annual_expenses + d.annual_healthcare_costs -
            d.social_security_annual - d.pension_annual) / 12 from by ring,
          max_zero_div_twelve]
      simp only [activeStep, hstop', Bool.false_eq_true, if_false, hwn]
      have hinfl : (1 + d.inflation_rate / 100 / 12) = 1 := by
        rw [h0]
        norm_num
      rw [hinfl]
      set p := (activeStateAfter d n).portfolio with hp
      set w := max 0 (d.annual_expenses + d.annual_healthcare_costs -
        d.social_security_annual - d.pension_annual) / 12 with hwdef
      have hgrow : p * (1 + d.expected_return / 100 / 12) =
          p + p * (d.expected_return / 100 / 12) := by ring
      rcases lt_trichotomy (p + p * (d.expected_return / 100 / 12)) w
        with hd | hd | hd
      · have hmc : p * (1 + d.expected_return / 100 / 12) - w ≤ 0 := by
          rw [hgrow]
          linarith
        rw [if_pos hmc, if_pos hd]
        refine ⟨rfl, rfl, by rw [mul_one]; exact ih3,
          by rw [mul_one]; exact ih4, fun _ => rfl⟩
      · have hmc : p * (1 + d.expected_return / 100 / 12) - w ≤ 0 := by
          rw [hgrow]
          linarith
        have hdet2 : ¬(p + p * (d.expected_return / 100 / 12) < w) := by
          rw [hd]
          exact lt_irrefl w
        rw [if_pos hmc, if_neg hdet2]
        refine ⟨?_, rfl, by rw [mul_one]; exact ih3,
          by rw [mul_one]; exact ih4, fun _ => by linarith⟩
        show (0 : ℚ) = p + p * (d.expected_return / 100 / 12) - w
        linarith
      · have hmc : ¬(p * (1 + d.expected_return / 100 / 12) - w ≤ 0) := by
          rw [hgrow]
          exact not_le.mpr (by linarith)
        have hdet2 : ¬(p + p * (d.expected_return / 100 / 12) < w) :=
          not_lt.mpr (le_of_lt hd)
        rw [if_neg hmc, if_neg hdet2]
        refine ⟨?_, rfl, by rw [mul_one]; exact ih3,
          by rw [mul_one]; exact ih4, ?_⟩
        · show p * (1 + d.expected_return / 100 / 12) - w =
            p + p * (d.expected_return / 100 / 12) - w
          rw [hgrow]
        · intro habs
          rw [decide_eq_true_eq] at habs
          exact absurd habs (by linarith)


theorem run_withdrawal_eq_mcStats (sp aw : ℚ) (years : ℕ) (er v ir : ℚ)
    (runs : ℕ) (draws : ℕ → ℕ → ℚ) (h : ¬ runs = 0) :
    run_withdrawal_monte_carlo sp aw years er v ir runs draws =
      mcStats
        (((List.range runs).map (fun i =>
          withdrawRunState sp (aw / 12) (ir / 100) (draws i) (years * 12))).map
            (fun s => s.1))
        (((((List.range runs).map (fun i =>
          withdrawRunState sp (aw / 12) (ir / 100) (draws i)
            (years * 12))).filter (fun s => !s.2.2)).length : ℚ) /
          (runs : ℚ) * 100) := by
  unfold run_withdrawal_monte_carlo
  rw [if_neg h]

/-- C5 counterexample: with nonzero inflation, running the withdrawal
simulator with every monthly draw fixed to the mean return (volatility
zero) does not reproduce the deterministic active-retirement ending value
for the same assumptions (start 1200, annual costs 120, return 0%,
inflation 12%, one year): the simulator inflates the withdrawal once per
12 months by the full annual rate (never within the first year), giving
1080, while the deterministic calculator inflates costs every month by
one-twelfth of the annual rate, giving 1200 - 10·Σ(1.01)^k ≈ 1073.17. -/
theorem mean_draws_counterexample :
    (run_withdrawal_monte_carlo 1200 120 1 0 0 12 1 (fun _ _ => 0)).map
        (fun r => r.median) ≠
      some ((calculate_active_retirement_phase
        ⟨1200, 65, 66, 120, 0, 0, 0, 0, 12⟩).ending_portfolio) := by
  have m1 : withdrawRunState 1200 (120 / 12) (12 / 100) (fun _ => 0) 1 =
      (1190, 10, false) := by
    rw [show (1 : ℕ) = 0 + 1 from rfl, withdrawRunState_succ]
    norm_num [withdrawRunState, iterSteps]
  have m2 : withdrawRunState 1200 (120 / 12) (12 / 100) (fun _ => 0) 2 =
      (1180, 10, false) := by
    rw [show (2 : ℕ) = 1 + 1 from rfl, withdrawRunState_succ, m1]
    norm_num
  have m3 : withdrawRunState 1200 (120 / 12) (12 / 100) (fun _ => 0) 3 =
      (1170, 10, false) := by
    rw [show (3 : ℕ) = 2 + 1 from rfl, withdrawRunState_succ, m2]
    norm_num
  have m4 : withdrawRunState 1200 (120 / 12) (12 / 100) (fun _ => 0) 4 =
      (1160, 10, false) := by
    rw [show (4 : ℕ) = 3 + 1 from rfl, withdrawRunState_succ, m3]
    norm_num
  have m5 : withdrawRunState 1200 (120 / 12) (12 / 100) (fun _ => 0) 5 =
      (1150, 10, false) := by
    rw [show (5 : ℕ) = 4 + 1 from rfl, withdrawRunState_succ, m4]
    norm_num
  have m6 : withdrawRunState 1200 (120 / 12) (12 / 100) (fun _ => 0) 6 =
      (1140, 10, false) := by
    rw [show (6 : ℕ) = 5 + 1 from rfl, withdrawRunState_succ, m5]
    norm_num
  have m7 : withdrawRunState 1200 (120 / 12) (12 / 100) (fun _ => 0) 7 =
      (1130, 10, false) := by
    rw [show (7 : ℕ) = 6 + 1 from rfl, withdrawRunState_succ, m6]
    norm_num
  have m8 : withdrawRunState 1200 (120 / 12) (12 / 100) (fun _ => 0) 8 =
      (1120, 10, false) := by
    rw [show (8 : ℕ) = 7 + 1 from rfl, withdrawRunState_succ, m7]
    norm_num
  have m9 : withdrawRunState 1200 (120 / 12) (12 / 100) (fun _ => 0) 9 =
      (1110, 10, false) := by
    rw [show (9 : ℕ) = 8 + 1 from rfl, withdrawRunState_succ, m8]
    norm_num
  have m10 : withdrawRunState 1200 (120 / 12) (12 / 100) (fun _ => 0) 10 =
      (1100, 10, false) := by
    rw [show (10 : ℕ) = 9 + 1 from rfl, withdrawRunState_succ, m9]
    norm_num
  have m11 : withdrawRunState 1200 (120 / 12) (12 / 100) (fun _ => 0) 11 =
      (1090, 10, false) := by
    rw [show (11 : ℕ) = 10 + 1 from rfl, withdrawRunState_succ, m10]
    norm_num
  have m12 : withdrawRunState 1200 (120 / 12) (12 / 100) (fun _ => 0) 12 =
      (1080, 10, false) := by
    rw [show (12 : ℕ) = 11 + 1 from rfl, withdrawRunState_succ, m11]
    norm_num
  have s1 : activeStateAfter ⟨1200, 65, 66, 120, 0, 0, 0, 0, 12⟩ 1 =
      ⟨1190, 10, 0, 0, 0, 101 / 10, 0, none, false⟩ := by
    rw [show (1 : ℕ) = 0 + 1 from rfl, activeStateAfter_succ]
    norm_num [activeStateAfter, iterSteps, activeInit, activeStep, max_def,
      ActiveState.mk.injEq]
  have s2 : activeStateAfter ⟨1200, 65, 66, 120, 0, 0, 0, 0, 12⟩ 2 =
      ⟨11799 / 10, 201 / 10, 0, 0, 0, 10201 / 1000, 0, none, false⟩ := by
    rw [show (2 : ℕ) = 1 + 1 from rfl, activeStateAfter_succ, s1]
    norm_num [activeStep, max_def, ActiveState.mk.injEq]
  have s3 : activeStateAfter ⟨1200, 65, 66, 120, 0, 0, 0, 0, 12⟩ 3 =
      ⟨1169699 / 1000, 30301 / 1000, 0, 0, 0, 1030301 / 100000, 0, none, false⟩ := by
    rw [show (3 : ℕ) = 2 + 1 from rfl, activeStateAfter_succ, s2]
    norm_num [activeStep, max_def, ActiveState.mk.injEq]
  have s4 : activeStateAfter ⟨1200, 65, 66, 120, 0, 0, 0, 0, 12⟩ 4 =
      ⟨115939599 / 100000, 4060401 / 100000, 0, 0, 0, 104060401 / 10000000, 0, none, false⟩ := by
    rw [show (4 : ℕ) = 3 + 1 from rfl, activeStateAfter_succ, s3]
    norm_num [activeStep, max_def, ActiveState.mk.injEq]
  have s5 : activeStateAfter ⟨1200, 65, 66, 120, 0, 0, 0, 0, 12⟩ 5 =
      ⟨11489899499 / 10000000, 510100501 / 10000000, 0, 0, 0, 10510100501 / 1000000000, 0, none, false⟩ := by
    rw [show (5 : ℕ) = 4 + 1 from rfl, activeStateAfter_succ, s4]
    norm_num [activeStep, max_def, ActiveState.mk.injEq]
  have s6 : activeStateAfter ⟨1200, 65, 66, 120, 0, 0, 0, 0, 12⟩ 6 =
      ⟨1138479849399 / 1000000000, 61520150601 / 1000000000, 0, 0, 0, 1061520150601 / 100000000000, 0, none, false⟩ := by
    rw [show (6 : ℕ) = 5 + 1 from rfl, activeStateAfter_succ, s5]
    norm_num [activeStep, max_def, ActiveState.mk.injEq]
  have s7 : activeStateAfter ⟨1200, 65, 66, 120, 0, 0, 0, 0, 12⟩ 7 =
      ⟨112786464789299 / 100000000000, 7213535210701 / 100000000000, 0, 0, 0, 107213535210701 / 10000000000000, 0, none, false⟩ := by
    rw [show (7 : ℕ) = 6 + 1 from rfl, activeStateAfter_succ, s6]
    norm_num [activeStep, max_def, ActiveState.mk.injEq]
  have s8 : activeStateAfter ⟨1200, 65, 66, 120, 0, 0, 0, 0, 12⟩ 8 =
      ⟨11171432943719199 / 10000000000000, 828567056280801 / 10000000000000, 0, 0, 0, 10828567056280801 / 1000000000000000, 0, none, false⟩ := by
    rw [show (8 : ℕ) = 7 + 1 from rfl, activeStateAfter_succ, s7]
    norm_num [activeStep, max_def, ActiveState.mk.injEq]
  have s9 : activeStateAfter ⟨1200, 65, 66, 120, 0, 0, 0, 0, 12⟩ 9 =
      ⟨1106314727315639099 / 1000000000000000, 93685272684360901 / 1000000000000000, 0, 0, 0, 1093685272684360901 / 100000000000000000, 0, none, false⟩ := by
    rw [show (9 : ℕ) = 8 + 1 from rfl, activeStateAfter_succ, s8]
    norm_num [activeStep, max_def, ActiveState.mk.injEq]
  have s10 : activeStateAfter ⟨1200, 65, 66, 120, 0, 0, 0, 0, 12⟩ 10 =
      ⟨109537787458879548999 / 100000000000000000, 10462212541120451001 / 100000000000000000, 0, 0, 0, 110462212541120451001 / 10000000000000000000, 0, none, false⟩ := by
    rw [show (10 : ℕ) = 9 + 1 from rfl, activeStateAfter_succ, s9]
    norm_num [activeStep, max_def, ActiveState.mk.injEq]
  have s11 : activeStateAfter ⟨1200, 65, 66, 120, 0, 0, 0, 0, 12⟩ 11 =
      ⟨10843316533346834448899 / 10000000000000000000, 1156683466653165551101 / 10000000000000000000, 0, 0, 0, 11156683466653165551101 / 1000000000000000000000, 0, none, false⟩ := by
    rw [show (11 : ℕ) = 10 + 1 from rfl, activeStateAfter_succ, s10]
    norm_num [activeStep, max_def, ActiveState.mk.injEq]
  have s12 : activeStateAfter ⟨1200, 65, 66, 120, 0, 0, 0, 0, 12⟩ 12 =
      ⟨1073174969868030279338799 / 1000000000000000000000, 126825030131969720661201 / 1000000000000000000000, 0, 0, 0, 1126825030131969720661201 / 100000000000000000000000, 0, none, false⟩ := by
    rw [show (12 : ℕ) = 11 + 1 from rfl, activeStateAfter_succ, s11]
    norm_num [activeStep, max_def, ActiveState.mk.injEq]
  have hfin : (List.range 1).map (fun i =>
      withdrawRunState 1200 (120 / 12) (12 / 100) ((fun _ _ => (0 : ℚ)) i)
        (1 * 12)) = [(1080, 10, false)] := by
    show [withdrawRunState 1200 (120 / 12) (12 / 100) (fun _ => (0 : ℚ)) 12] =
      [(1080, 10, false)]
    rw [m12]
  have hmc : (run_withdrawal_monte_carlo 1200 120 1 0 0 12 1
      (fun _ _ => 0)).map (fun r => r.median) = some 1080 := by
    rw [run_withdrawal_eq_mcStats 1200 120 1 0 0 12 1 (fun _ _ => 0)
      (by norm_num), hfin]
    norm_num [mcStats_cons, mcStatsVal, medianVal, sortQ,
      List.insertionSort, List.orderedInsert]
  have hdet : (calculate_active_retirement_phase ⟨1200, 65, 66, 120, 0, 0, 0, 0, 12⟩).ending_portfolio =
      (1073174969868030279338799 / 1000000000000000000000 : ℚ) := by
    show (activeStateAfter ⟨1200, 65, 66, 120, 0, 0, 0, 0, 12⟩ 12).portfolio = _
    rw [s12]
  rw [hmc, hdet]
  intro habs
  rw [Option.some.injEq] at habs
  norm_num at habs

/-- C5 amended: the per-period operation order is identical (growth by
`1 + return` first, then the cash flow), so with every period's random
return fixed to its mean the accumulation simulator always reproduces the
deterministic future value (with the simulator's contribution set to
personal plus employer match and its growth rate to the salary-increase
rate), and the withdrawal simulator reproduces the deterministic
active-retirement ending value whenever inflation is zero (with its
annual withdrawal equal to the phase's annual net costs); with nonzero
inflation the two inflate on different schedules and diverge. -/
theorem mean_draws_reproduce_deterministic :
    (∀ d : AccumulationInput, d.current_age ≤ d.retirement_start_age →
      (accumRunState d.current_savings
          (d.monthly_contribution * (1 + d.employer_match_rate / 100))
          (d.annual_salary_increase / 100)
          (fun _ => d.expected_return / 100 / 12) (accumMonths d)).1 =
        (calculate_accumulation_phase d).future_value) ∧
    (∀ d : ActiveInput, d.inflation_rate = 0 →
      (withdrawRunState d.starting_portfolio
          (max 0 (d.annual_expenses + d.annual_healthcare_costs -
            d.social_security_annual - d.pension_annual) / 12)
          (d.inflation_rate / 100)
          (fun _ => d.expected_return / 100 / 12) (activeMonths d)).1 =
        (calculate_active_retirement_phase d).ending_portfolio) := by
  constructor
  · intro d hd
    have hz : (d.retirement_start_age - d.current_age) * 12 =
        ((accumMonths d : ℕ) : ℤ) := by
      unfold accumMonths
      rw [Int.toNat_of_nonneg (by omega)]
    have h := (accum_mc_invariant d (accumMonths d) le_rfl).1
    rw [Nat.sub_self, pow_zero, mul_one] at h
    rw [h]
    show d.current_savings *
        (1 + d.expected_return / 100 / 12) ^ accumMonths d +
        (accumStateAfter d (accumMonths d)).fv_contributions =
      d.current_savings * (1 + d.expected_return / 100 / 12) ^
          ((d.retirement_start_age - d.current_age) * 12) +
        (accumStateAfter d (accumMonths d)).fv_contributions
    rw [hz, zpow_natCast]
  · intro d h0
    exact (withdraw_active_invariant d h0 (activeMonths d)).1

/-- Witness for the amended C5: both equalities at concrete inputs. -/
theorem mean_draws_reproduce_deterministic_witness :
    ((accumRunState 1000 (100 * (1 + 50 / 100)) (2 / 100)
        (fun _ => (7 : ℚ) / 100 / 12)
        (accumMonths ⟨30, 31, 1000, 100, 50, 7, 2⟩)).1 =
      (calculate_accumulation_phase
        ⟨30, 31, 1000, 100, 50, 7, 2⟩).future_value) ∧
    ((withdrawRunState 1000 (max 0 (1200 + 0 - 0 - 0) / 12) ((0 : ℚ) / 100)
        (fun _ => (0 : ℚ) / 100 / 12)
        (activeMonths ⟨1000, 65, 66, 1200, 0, 0, 0, 0, 0⟩)).1 =
      (calculate_active_retirement_phase
        ⟨1000, 65, 66, 1200, 0, 0, 0, 0, 0⟩).ending_portfolio) :=
  ⟨mean_draws_reproduce_deterministic.1 ⟨30, 31, 1000, 100, 50, 7, 2⟩
      (by norm_num),
   mean_draws_reproduce_deterministic.2 ⟨1000, 65, 66, 1200, 0, 0, 0, 0, 0⟩
      rfl⟩

/-- C8: for each deterministic phase calculator, an input mapping lacking a
required field fails with an error naming a required field, before any
computation (the call succeeds exactly when every required field is
present, and every error value is the name of a required field), whereas
absent optional fields default to zero: filling each optional field
explicitly with its zero default gives the identical result. -/
theorem missing_required_vs_optional_defaults :
    (∀ d : AccumulationData,
      ((isOkE (calculate_accumulation_phase_checked d) = true) ↔
        d.requiredPresent) ∧
      (∀ e, calculate_accumulation_phase_checked d = .error e →
        e ∈ AccumulationData.requiredKeys) ∧
      calculate_accumulation_phase_checked d.fillOptional =
        calculate_accumulation_phase_checked d) ∧
    (∀ d : PhasedData,
      ((isOkE (calculate_phased_retirement_phase_checked d) = true) ↔
        d.requiredPresent) ∧
      (∀ e, calculate_phased_retirement_phase_checked d = .error e →
        e ∈ PhasedData.requiredKeys) ∧
      calculate_phased_retirement_phase_checked d.fillOptional =
        calculate_phased_retirement_phase_checked d) ∧
    (∀ d : ActiveData,
      ((isOkE (calculate_active_retirement_phase_checked d) = true) ↔
        d.requiredPresent) ∧
      (∀ e, calculate_active_retirement_phase_checked d = .error e →
        e ∈ ActiveData.requiredKeys) ∧
      calculate_active_retirement_phase_checked d.fillOptional =
        calculate_active_retirement_phase_checked d) ∧
    (∀ d : LateData,
      ((isOkE (calculate_late_retirement_phase_checked d) = true) ↔
        d.requiredPresent) ∧
      (∀ e, calculate_late_retirement_phase_checked d = .error e →
        e ∈ LateData.requiredKeys) ∧
      calculate_late_retirement_phase_checked d.fillOptional =
        calculate_late_retirement_phase_checked d) := by
  refine ⟨?_, ?_, ?_, ?_⟩
  · intro d
    obtain ⟨f1, f2, f3, f4, f5, f6, f7⟩ := d
    refine ⟨?_, ?_, ?_⟩ <;>
      cases f1 <;> cases f2 <;> cases f3 <;> cases f4 <;> cases f6 <;>
        simp [calculate_accumulation_phase_checked, reqField, optField, isOkE,
          AccumulationData.requiredPresent, AccumulationData.requiredKeys,
          AccumulationData.fillOptional, bind, Except.bind, pure, Except.pure]
  · intro d
    obtain ⟨f1, f2, f3, f4, f5, f6, f7⟩ := d
    refine ⟨?_, ?_, ?_⟩ <;>
      cases f1 <;> cases f2 <;> cases f3 <;> cases f7 <;>
        simp [calculate_phased_retirement_phase_checked, reqField, optField,
          isOkE, PhasedData.requiredPresent, PhasedData.requiredKeys,
          PhasedData.fillOptional, bind, Except.bind, pure, Except.pure]
  · intro d
    obtain ⟨f1, f2, f3, f4, f5, f6, f7, f8, f9⟩ := d
    refine ⟨?_, ?_, ?_⟩ <;>
      cases f1 <;> cases f2 <;> cases f3 <;> cases f4 <;> cases f5 <;>
        cases f8 <;> cases f9 <;>
        simp [calculate_active_retirement_phase_checked, reqField, optField,
          isOkE, ActiveData.requiredPresent, ActiveData.requiredKeys,
          ActiveData.fillOptional, bind, Except.bind, pure, Except.pure]
  · intro d
    obtain ⟨f1, f2, f3, f4, f5, f6, f7, f8, f9, f10, f11⟩ := d
    refine ⟨?_, ?_, ?_⟩ <;>
      cases f1 <;> cases f2 <;> cases f3 <;> cases f4 <;> cases f5 <;>
        cases f9 <;> cases f10 <;>
        simp [calculate_late_retirement_phase_checked, reqField, optField,
          isOkE, LateData.requiredPresent, LateData.requiredKeys,
          LateData.fillOptional, bind, Except.bind, pure, Except.pure]

/-- Witness for C8: an empty accumulation mapping fails with the distinct
error naming `current_age`, the first required field read. -/
theorem missing_required_vs_optional_defaults_witness :
    "current_age" ∈ AccumulationData.requiredKeys :=
  (missing_required_vs_optional_defaults.1
    ⟨none, none, none, none, none, none, none⟩).2.1 "current_age" rfl

end RetirementPlanner



